import Mathlib

/-!
Shallow embedding of the resilient API fetcher `makeApiRequest` of the
bio-mcp repository (source: the utils module, lines 423-589), together with
the pieces of the JavaScript runtime it relies on (JSON values,
`JSON.stringify`, `JSON.parse`, the title-salvage regular expression,
`String.prototype.split` / `toUpperCase` / `includes`).  The underlying
transport (`fetch` plus the per-attempt abort timer) is modelled as an
explicit environment parameter; every network interaction the function
performs is recorded in a call log so that call counts, issued requests and
backoff sleeps are observable.
-/

/-- JS/JSON values.  Numbers are restricted to integers: no claim about the
fetcher involves fractional numbers, and floating point is outside the
embedding. -/
inductive Json where
  | null : Json
  | bool (b : Bool) : Json
  | num (n : Int) : Json
  | str (s : String) : Json
  | arr (xs : List Json) : Json
  | obj (fields : List (String × Json)) : Json

/-- Escape one character for a JSON string literal (the cases
`JSON.stringify` produces for the strings appearing in this program). -/
def quoteEscChar (c : Char) : String :=
  if c = '"' then "\\\""
  else if c = '\\' then "\\\\"
  else if c = '\n' then "\\n"
  else if c = '\t' then "\\t"
  else if c = '\r' then "\\r"
  else String.mk [c]

/-- Render a JSON string literal, quotes included. -/
def quoteString (s : String) : String :=
  "\"" ++ String.join (s.data.map quoteEscChar) ++ "\""

mutual
/-- The JS `JSON.stringify` (single-argument form: no extra whitespace). -/
def stringify : Json → String
  | .null => "null"
  | .bool true => "true"
  | .bool false => "false"
  | .num n => toString n
  | .str s => quoteString s
  | .arr xs => "[" ++ stringifyElems xs ++ "]"
  | .obj fs => "\x7b" ++ stringifyFields fs ++ "\x7d"

def stringifyElems : List Json → String
  | [] => ""
  | [x] => stringify x
  | x :: y :: rest => stringify x ++ "," ++ stringifyElems (y :: rest)

def stringifyFields : List (String × Json) → String
  | [] => ""
  | [(k, v)] => quoteString k ++ ":" ++ stringify v
  | (k, v) :: f :: rest =>
      quoteString k ++ ":" ++ stringify v ++ "," ++ stringifyFields (f :: rest)
end

/-- JSON whitespace (the characters `JSON.parse` skips between tokens). -/
def isJsonWs (c : Char) : Bool :=
  c = ' ' || c = '\t' || c = '\n' || c = '\r'

def skipWs (cs : List Char) : List Char := cs.dropWhile isJsonWs

def hexVal (c : Char) : Option Nat :=
  if '0' ≤ c ∧ c ≤ '9' then some (c.toNat - 48)
  else if 'a' ≤ c ∧ c ≤ 'f' then some (c.toNat - 87)
  else if 'A' ≤ c ∧ c ≤ 'F' then some (c.toNat - 55)
  else none

/-- Parse the body of a JSON string literal after the opening quote.
Returns the decoded string and the input after the closing quote. -/
def parseStringBody : List Char → List Char → Option (String × List Char)
  | _, [] => none
  | acc, '"' :: r => some (String.mk acc.reverse, r)
  | _, ['\\'] => none
  | acc, '\\' :: e :: r =>
    if e = '"' then parseStringBody ('"' :: acc) r
    else if e = '\\' then parseStringBody ('\\' :: acc) r
    else if e = '/' then parseStringBody ('/' :: acc) r
    else if e = 'n' then parseStringBody ('\n' :: acc) r
    else if e = 't' then parseStringBody ('\t' :: acc) r
    else if e = 'r' then parseStringBody ('\r' :: acc) r
    else if e = 'b' then parseStringBody ('\x08' :: acc) r
    else if e = 'f' then parseStringBody ('\x0c' :: acc) r
    else if e = 'u' then
      match r with
      | a :: b :: c :: d :: r2 =>
        match hexVal a, hexVal b, hexVal c, hexVal d with
        | some x, some y, some z, some w =>
          let n := ((x * 16 + y) * 16 + z) * 16 + w
          if Nat.isValidChar n then parseStringBody (Char.ofNat n :: acc) r2 else none
        | _, _, _, _ => none
      | _ => none
    else none
  | acc, c :: r => if c.toNat < 32 then none else parseStringBody (c :: acc) r

/-- Parse a JSON number (integer grammar: optional minus, digits, no
leading zeros; fractional and exponent forms are outside the embedding and
rejected). -/
def parseNumber (cs : List Char) : Option (Json × List Char) :=
  let neg := match cs with | '-' :: _ => true | _ => false
  let cs1 := match cs with | '-' :: r => r | _ => cs
  let ds := cs1.takeWhile Char.isDigit
  let rest := cs1.dropWhile Char.isDigit
  if ds = [] then none
  else if ds.length > 1 ∧ ds.headD '0' = '0' then none
  else
    match rest with
    | '.' :: _ => none
    | 'e' :: _ => none
    | 'E' :: _ => none
    | _ =>
      let n : Nat := ds.foldl (fun a c => a * 10 + (c.toNat - 48)) 0
      some (.num (if neg then -(n : Int) else (n : Int)), rest)

mutual
/-- Fuel-indexed recursive-descent JSON value grammar, as consumed by
`JSON.parse`. -/
def parseVal : Nat → List Char → Option (Json × List Char)
  | 0, _ => none
  | Nat.succ fuel, cs =>
    match skipWs cs with
    | 'n' :: 'u' :: 'l' :: 'l' :: r => some (.null, r)
    | 't' :: 'r' :: 'u' :: 'e' :: r => some (.bool true, r)
    | 'f' :: 'a' :: 'l' :: 's' :: 'e' :: r => some (.bool false, r)
    | '"' :: r => (parseStringBody [] r).map (fun p => (.str p.1, p.2))
    | '[' :: r =>
      (match skipWs r with
       | ']' :: r2 => some (.arr [], r2)
       | _ => (parseElems fuel r).map (fun p => (.arr p.1, p.2)))
    | '\x7b' :: r =>
      (match skipWs r with
       | '\x7d' :: r2 => some (.obj [], r2)
       | _ => (parseFields fuel r).map (fun p => (.obj p.1, p.2)))
    | cs2 => parseNumber cs2

def parseElems : Nat → List Char → Option (List Json × List Char)
  | 0, _ => none
  | Nat.succ fuel, cs =>
    match parseVal fuel cs with
    | none => none
    | some (v, r) =>
      match skipWs r with
      | ',' :: r2 => (parseElems fuel r2).map (fun p => (v :: p.1, p.2))
      | ']' :: r2 => some ([v], r2)
      | _ => none

def parseFields : Nat → List Char → Option (List (String × Json) × List Char)
  | 0, _ => none
  | Nat.succ fuel, cs =>
    match skipWs cs with
    | '"' :: r =>
      (match parseStringBody [] r with
       | none => none
       | some (k, r2) =>
         match skipWs r2 with
         | ':' :: r3 =>
           (match parseVal fuel r3 with
            | none => none
            | some (v, r4) =>
              match skipWs r4 with
              | ',' :: r5 => (parseFields fuel r5).map (fun p => ((k, v) :: p.1, p.2))
              | '\x7d' :: r5 => some ([(k, v)], r5)
              | _ => none)
         | _ => none)
    | _ => none
end

/-- The JS `JSON.parse`: `none` models a thrown `SyntaxError`. -/
def parseJson (s : String) : Option Json :=
  match parseVal (2 * s.length + 2) s.data with
  | some (v, r) => if skipWs r = [] then some v else none
  | none => none

/-- The `\s` character class of the salvage regular expression. -/
def isRegexWs (c : Char) : Bool :=
  c = ' ' || c = '\t' || c = '\n' || c = '\r' || c = '\x0b' || c = '\x0c'

/-- Try to match the regular expression `"title"\s*:\s*"([^"]+)"` starting
exactly at the head of the input, returning the first capture group. -/
def matchTitleAt (cs : List Char) : Option String :=
  match cs with
  | '"' :: 't' :: 'i' :: 't' :: 'l' :: 'e' :: '"' :: r =>
    (match r.dropWhile isRegexWs with
     | ':' :: r2 =>
       (match r2.dropWhile isRegexWs with
        | '"' :: r4 =>
          let cap := r4.takeWhile (fun c => c ≠ '"')
          (match cap, r4.dropWhile (fun c => c ≠ '"') with
           | _ :: _, '"' :: _ => some (String.mk cap)
           | _, _ => none)
        | _ => none)
     | _ => none)
  | _ => none

/-- The JS `text.match(/"title"\s*:\s*"([^"]+)"/)`: leftmost match wins;
returns the capture group of the first position where the pattern matches. -/
def titleSearch : List Char → Option String
  | [] => none
  | c :: cs =>
    match matchTitleAt (c :: cs) with
    | some t => some t
    | none => titleSearch cs

/-- The JS `needle.length <= hay.length && hay startsWith needle` on char
lists (first argument is the needle). -/
def startsWithChars : List Char → List Char → Bool
  | [], _ => true
  | _ :: _, [] => false
  | a :: as, b :: bs => a = b && startsWithChars as bs

/-- The JS `hay.includes(sub)` on char lists. -/
def containsChars (hay sub : List Char) : Bool :=
  startsWithChars sub hay ||
    (match hay with
     | [] => false
     | _ :: r => containsChars r sub)

def strIncludes (s sub : String) : Bool := containsChars s.data sub.data

/-- The JS `String.prototype.split` with a single-character separator. -/
def splitChar (sep : Char) : List Char → List (List Char)
  | [] => [[]]
  | c :: r =>
    let rest := splitChar sep r
    if c = sep then [] :: rest
    else
      match rest with
      | s :: ss => (c :: s) :: ss
      | [] => [[c]]

/-- ASCII uppercase of one character (the JS `toUpperCase` on the
identifier alphabet this program handles). -/
def jsUpperChar (c : Char) : Char :=
  if 97 ≤ c.toNat ∧ c.toNat ≤ 122 then Char.ofNat (c.toNat - 32) else c

def jsToUpper (cs : List Char) : List Char := cs.map jsUpperChar

/-- The source expression `url.split('/').pop()?.toUpperCase()`. -/
def lastPathSegmentUpper (url : String) : String :=
  String.mk (jsToUpper ((splitChar '/' url.data).getLastD []))

/-- Last-binding-wins field lookup, as on a JS object built by
`JSON.parse`. -/
def lookupField (k : String) : List (String × Json) → Option Json
  | [] => none
  | (k2, v) :: rest =>
    match lookupField k rest with
    | some w => some w
    | none => if k2 = k then some v else none

/-- The JS optional-chaining member access `j?.k`: `none` models
`undefined`. -/
def getField (j : Json) (k : String) : Option Json :=
  match j with
  | .obj fs => lookupField k fs
  | _ => none

/-- JS truthiness of a JSON value. -/
def jsTruthy : Json → Bool
  | .null => false
  | .bool b => b
  | .num n => decide (n ≠ 0)
  | .str s => decide (s ≠ "")
  | .arr _ => true
  | .obj _ => true

/-- The source expression `graphqlData?.data?.entry`. -/
def dataEntry (j : Json) : Option Json :=
  (getField j "data").bind (fun d => getField d "entry")

-- Configuration constants of the source module.
def USER_AGENT : String := "PDB-Analysis-Tool/1.0"
def DEFAULT_API_TIMEOUT : Nat := 30000
def GRAPHQL_URL : String := "https://data.rcsb.org/graphql"
def MAX_RETRIES : Nat := 3

/-- One fully-built HTTP request as handed to the transport. -/
structure Request where
  url : String
  method : String
  headers : List (String × String)
  body : Option String
deriving DecidableEq

/-- What one `fetch` call would do, absent the abort timer: resolve after
`after` milliseconds with a response, reject after `after` milliseconds
with an error of the given name, or never settle. -/
inductive RawOutcome where
  | completes (after : Nat) (status : Nat) (body : String)
  | fails (after : Nat) (name : String)
  | hangs
deriving DecidableEq

/-- The settled outcome of one attempt as the `await fetch` sees it. -/
inductive FetchResult where
  | ok (status : Nat) (body : String)
  | err (name : String)
deriving DecidableEq

def FetchResult.isErr : FetchResult → Bool
  | .ok _ _ => false
  | .err _ => true

/-- Per-attempt timer semantics: `setTimeout(() => controller.abort(), timeout)`
races the fetch; if the fetch has not settled within the timeout it is
aborted and the `await` rejects with an `AbortError`. -/
def effectiveOutcome (timeout : Nat) : RawOutcome → FetchResult
  | .completes a s b => if a > timeout then .err "AbortError" else .ok s b
  | .fails a n => if a > timeout then .err "AbortError" else .err n
  | .hangs => .err "AbortError"

/-- The environment: what the `i`-th fetch issued during one call does,
given the request it is handed. -/
structure Transport where
  behave : Nat → Request → RawOutcome

/-- The argument list of `makeApiRequest(url, method = 'GET', body?,
timeout = DEFAULT_API_TIMEOUT)`. -/
structure Descriptor where
  url : String
  method : String := "GET"
  body : Option Json := none
  timeout : Nat := DEFAULT_API_TIMEOUT

/-- Observable trace of one call: every request handed to the transport in
order, and every backoff sleep performed, in milliseconds. -/
structure CallLog where
  requests : List Request
  delays : List Nat
deriving DecidableEq

/-- The JS-visible outcome of an async function: a returned value or a
thrown error. -/
inductive JsOutcome where
  | returns (v : Json)
  | throws (e : String)
deriving Inhabited

/-- Headers built at the top of `makeApiRequest`: User-Agent and Accept
always, Content-Type exactly when a body is present. -/
def requestHeaders (body : Option Json) : List (String × String) :=
  [("User-Agent", USER_AGENT), ("Accept", "application/json")] ++
    (match body with
     | some _ => [("Content-Type", "application/json")]
     | none => [])

/-- The `options` object handed to `fetch`: the descriptor's method, the
headers above, and `JSON.stringify(body)` when a body is present —
independently of the method. -/
def buildRequest (d : Descriptor) : Request :=
  { url := d.url, method := d.method, headers := requestHeaders d.body,
    body := d.body.map stringify }

/-- The GraphQL query object built for the 404 fallback. -/
def graphqlFallbackQuery (pdbId : String) : Json :=
  .obj [("query",
    .str ("\x7b entry(entry_id:\"" ++ pdbId ++
      "\") \x7b rcsb_id struct \x7b title \x7d \x7d \x7d"))]

/-- The fixed POST request the 404 fallback issues. -/
def graphqlFallbackRequest (pdbId : String) : Request :=
  { url := GRAPHQL_URL, method := "POST",
    headers := [("User-Agent", USER_AGENT), ("Content-Type", "application/json"),
                ("Accept", "application/json")],
    body := some (stringify (graphqlFallbackQuery pdbId)) }

/-- The retry loop (`while (retries < maxRetries) ...`).  `fuel` is the
number of loop iterations still permitted, i.e. `maxRetries - retries`;
`retries` is the source's counter (used by the backoff formula
`1000 * Math.pow(2, retries - 1)` after its increment); `callIdx` numbers
the fetches handed to the transport.  Returns the loop's result — the
settled response `(status, bodyText)` or the error finally re-thrown — with
the list of backoff sleeps performed and the number of fetches issued. -/
def retryGo (t : Transport) (req : Request) (timeout : Nat) :
    Nat → Nat → Nat → Except String (Nat × String) × (List Nat × Nat)
  | 0, _, _ => (.error "Failed to get a response after retries", ([], 0))
  | fuel + 1, retries, callIdx =>
    match effectiveOutcome timeout (t.behave callIdx req) with
    | .ok status body => (.ok (status, body), ([], 1))
    | .err name =>
      match fuel with
      | 0 => (.error name, ([], 1))
      | _ + 1 =>
        let rest := retryGo t req timeout fuel (retries + 1) (callIdx + 1)
        (rest.1, (1000 * 2 ^ retries :: rest.2.1, rest.2.2 + 1))

def retryLoop (t : Transport) (req : Request) (timeout : Nat) :
    Except String (Nat × String) × (List Nat × Nat) :=
  retryGo t req timeout MAX_RETRIES 0 0

/-- The tail of the function once a response has settled and the 404
fallback has not rescued it: throw on a non-ok status, otherwise decode the
body, salvaging a `{struct:{title}}` object from the raw text when decoding
fails, else return null. -/
def handleResponse (status : Nat) (bodyText : String) : Except String Json :=
  if 200 ≤ status ∧ status ≤ 299 then
    match parseJson bodyText with
    | some data => .ok data
    | none =>
      if bodyText.length > 0 then
        match titleSearch bodyText.data with
        | some t => .ok (.obj [("struct", .obj [("title", .str t)])])
        | none => .ok .null
      else .ok .null
  else .error ("HTTP error! status: " ++ toString status)

/-- The inner GraphQL rescue of the 404 branch: given how the fallback
fetch settled, either return the rescued entry, re-raise the fetch's or the
JSON decoder's error, or fall through to the normal handling of the
original 404 response. -/
def fallbackResult (fr : FetchResult) (status : Nat) (bodyText : String) :
    Except String Json :=
  match fr with
  | .err name => .error name
  | .ok gqlStatus gqlBody =>
    if 200 ≤ gqlStatus ∧ gqlStatus ≤ 299 then
      match parseJson gqlBody with
      | none => .error "invalid json response body"
      | some gqlData =>
        match dataEntry gqlData with
        | some entry =>
          if jsTruthy entry = true then .ok entry
          else handleResponse status bodyText
        | none => handleResponse status bodyText
    else handleResponse status bodyText

/-- The body of the outer `try` of `makeApiRequest`: retry loop, 404
GraphQL fallback, status check, decode and salvage.  `Except.error` models
an exception reaching the outer catch. -/
def tryBlock (d : Descriptor) (t : Transport) : Except String Json × CallLog :=
  let req := buildRequest d
  match retryLoop t req d.timeout with
  | (.error e, (delays, n)) => (.error e, ⟨List.replicate n req, delays⟩)
  | (.ok (status, bodyText), (delays, n)) =>
    if status = 404 ∧ strIncludes d.url "/core/entry/" = true then
      let pdbId := lastPathSegmentUpper d.url
      if pdbId ≠ "" ∧ pdbId.length = 4 then
        let gqlReq := graphqlFallbackRequest pdbId
        (fallbackResult (effectiveOutcome d.timeout (t.behave n gqlReq)) status bodyText,
         ⟨List.replicate n req ++ [gqlReq], delays⟩)
      else (handleResponse status bodyText, ⟨List.replicate n req, delays⟩)
    else (handleResponse status bodyText, ⟨List.replicate n req, delays⟩)

/-- The whole of `makeApiRequest`: the `try` body above with the outer
`catch (error) { ...; return null }` applied. -/
def makeApiRequest (d : Descriptor) (t : Transport) : JsOutcome × CallLog :=
  match tryBlock d t with
  | (.ok v, log) => (.returns v, log)
  | (.error _, log) => (.returns .null, log)

def apiResult (d : Descriptor) (t : Transport) : JsOutcome := (makeApiRequest d t).1

def apiRequests (d : Descriptor) (t : Transport) : List Request :=
  (makeApiRequest d t).2.requests

def apiDelays (d : Descriptor) (t : Transport) : List Nat :=
  (makeApiRequest d t).2.delays

/-! ## Helper lemmas -/

theorem makeApiRequest_snd (d : Descriptor) (t : Transport) :
    (makeApiRequest d t).2 = (tryBlock d t).2 := by
  unfold makeApiRequest
  rcases h : tryBlock d t with ⟨r, l⟩
  cases r <;> simp

theorem makeApiRequest_of_ok {d : Descriptor} {t : Transport} {v : Json} {l : CallLog}
    (h : tryBlock d t = (.ok v, l)) : makeApiRequest d t = (.returns v, l) := by
  unfold makeApiRequest; rw [h]

theorem makeApiRequest_of_err {d : Descriptor} {t : Transport} {e : String} {l : CallLog}
    (h : tryBlock d t = (.error e, l)) : makeApiRequest d t = (.returns .null, l) := by
  unfold makeApiRequest; rw [h]

theorem isErr_iff {r : FetchResult} : r.isErr = true ↔ ∃ n, r = .err n := by
  cases r <;> simp [FetchResult.isErr]

theorem retryGo_ok {t : Transport} {req : Request} {timeout callIdx s : Nat} {b : String}
    (retries fuel : Nat)
    (h : effectiveOutcome timeout (t.behave callIdx req) = .ok s b) :
    retryGo t req timeout (fuel + 1) retries callIdx = (.ok (s, b), ([], 1)) := by
  unfold retryGo; rw [h]

theorem retryGo_err_last {t : Transport} {req : Request} {timeout callIdx : Nat} {name : String}
    (retries : Nat)
    (h : effectiveOutcome timeout (t.behave callIdx req) = .err name) :
    retryGo t req timeout 1 retries callIdx = (.error name, ([], 1)) := by
  unfold retryGo; rw [h]

theorem retryGo_err_step {t : Transport} {req : Request} {timeout callIdx : Nat} {name : String}
    (retries fuel : Nat)
    (h : effectiveOutcome timeout (t.behave callIdx req) = .err name) :
    retryGo t req timeout (fuel + 2) retries callIdx =
      ((retryGo t req timeout (fuel + 1) (retries + 1) (callIdx + 1)).1,
       (1000 * 2 ^ retries :: (retryGo t req timeout (fuel + 1) (retries + 1) (callIdx + 1)).2.1,
        (retryGo t req timeout (fuel + 1) (retries + 1) (callIdx + 1)).2.2 + 1)) := by
  conv_lhs => unfold retryGo
  rw [h]

theorem retryLoop_ok0 {t : Transport} {req : Request} {timeout s : Nat} {b : String}
    (h : effectiveOutcome timeout (t.behave 0 req) = .ok s b) :
    retryLoop t req timeout = (.ok (s, b), ([], 1)) := by
  unfold retryLoop MAX_RETRIES
  exact retryGo_ok 0 2 h

theorem retryLoop_err0_ok1 {t : Transport} {req : Request} {timeout s : Nat}
    {b : String} {n0 : String}
    (h0 : effectiveOutcome timeout (t.behave 0 req) = .err n0)
    (h1 : effectiveOutcome timeout (t.behave 1 req) = .ok s b) :
    retryLoop t req timeout = (.ok (s, b), ([1000], 2)) := by
  unfold retryLoop MAX_RETRIES
  rw [retryGo_err_step 0 1 h0, retryGo_ok 1 1 h1]
  norm_num

theorem retryLoop_err01_ok2 {t : Transport} {req : Request} {timeout s : Nat}
    {b : String} {n0 n1 : String}
    (h0 : effectiveOutcome timeout (t.behave 0 req) = .err n0)
    (h1 : effectiveOutcome timeout (t.behave 1 req) = .err n1)
    (h2 : effectiveOutcome timeout (t.behave 2 req) = .ok s b) :
    retryLoop t req timeout = (.ok (s, b), ([1000, 2000], 3)) := by
  unfold retryLoop MAX_RETRIES
  rw [retryGo_err_step 0 1 h0, retryGo_err_step 1 0 h1, retryGo_ok 2 0 h2]
  norm_num

theorem retryLoop_err_all {t : Transport} {req : Request} {timeout : Nat} {n0 n1 n2 : String}
    (h0 : effectiveOutcome timeout (t.behave 0 req) = .err n0)
    (h1 : effectiveOutcome timeout (t.behave 1 req) = .err n1)
    (h2 : effectiveOutcome timeout (t.behave 2 req) = .err n2) :
    retryLoop t req timeout = (.error n2, ([1000, 2000], 3)) := by
  unfold retryLoop MAX_RETRIES
  rw [retryGo_err_step 0 1 h0, retryGo_err_step 1 0 h1, retryGo_err_last 2 h2]
  norm_num

theorem tryBlock_of_loop_err {d : Descriptor} {t : Transport} {e : String}
    {delays : List Nat} {n : Nat}
    (h : retryLoop t (buildRequest d) d.timeout = (.error e, (delays, n))) :
    tryBlock d t = (.error e, ⟨List.replicate n (buildRequest d), delays⟩) := by
  simp only [tryBlock]
  rw [h]

theorem tryBlock_no_fallback {d : Descriptor} {t : Transport} {status : Nat}
    {bodyText : String} {delays : List Nat} {n : Nat}
    (h : retryLoop t (buildRequest d) d.timeout = (.ok (status, bodyText), (delays, n)))
    (hcond : ¬(status = 404 ∧ strIncludes d.url "/core/entry/" = true)) :
    tryBlock d t =
      (handleResponse status bodyText, ⟨List.replicate n (buildRequest d), delays⟩) := by
  simp only [tryBlock]
  rw [h]
  simp only [if_neg hcond]

theorem tryBlock_shape_fail {d : Descriptor} {t : Transport}
    {bodyText : String} {delays : List Nat} {n : Nat}
    (h : retryLoop t (buildRequest d) d.timeout = (.ok (404, bodyText), (delays, n)))
    (hcond : strIncludes d.url "/core/entry/" = true)
    (hshape : ¬(lastPathSegmentUpper d.url ≠ "" ∧ (lastPathSegmentUpper d.url).length = 4)) :
    tryBlock d t =
      (handleResponse 404 bodyText, ⟨List.replicate n (buildRequest d), delays⟩) := by
  simp only [tryBlock]
  rw [h]
  simp only [if_pos (And.intro rfl hcond), if_neg hshape]
  simp [hcond]

theorem tryBlock_fallback {d : Descriptor} {t : Transport}
    {bodyText : String} {delays : List Nat} {n : Nat}
    (h : retryLoop t (buildRequest d) d.timeout = (.ok (404, bodyText), (delays, n)))
    (hcond : strIncludes d.url "/core/entry/" = true)
    (hne : lastPathSegmentUpper d.url ≠ "")
    (hlen : (lastPathSegmentUpper d.url).length = 4) :
    tryBlock d t =
      (fallbackResult
        (effectiveOutcome d.timeout
          (t.behave n (graphqlFallbackRequest (lastPathSegmentUpper d.url))))
        404 bodyText,
       ⟨List.replicate n (buildRequest d) ++
          [graphqlFallbackRequest (lastPathSegmentUpper d.url)], delays⟩) := by
  simp only [tryBlock]
  rw [h]
  simp only [if_pos (And.intro rfl hcond), if_pos (And.intro hne hlen)]
  simp [hcond]

theorem handleResponse_parse_ok {status : Nat} {b : String} {v : Json}
    (h1 : 200 ≤ status) (h2 : status ≤ 299) (hp : parseJson b = some v) :
    handleResponse status b = .ok v := by
  unfold handleResponse
  rw [if_pos (And.intro h1 h2), hp]

theorem handleResponse_http_err {status : Nat} {b : String}
    (h : ¬(200 ≤ status ∧ status ≤ 299)) :
    handleResponse status b = .error ("HTTP error! status: " ++ toString status) := by
  unfold handleResponse
  rw [if_neg h]

theorem titleSearch_ne_nil {cs : List Char} {ttl : String}
    (h : titleSearch cs = some ttl) : cs ≠ [] := by
  intro hnil
  rw [hnil] at h
  simp [titleSearch] at h

theorem handleResponse_salvage {status : Nat} {b : String} {ttl : String}
    (h1 : 200 ≤ status) (h2 : status ≤ 299) (hp : parseJson b = none)
    (hs : titleSearch b.data = some ttl) :
    handleResponse status b = .ok (.obj [("struct", .obj [("title", .str ttl)])]) := by
  unfold handleResponse
  rw [if_pos (And.intro h1 h2), hp]
  have hlen : b.length > 0 := by
    have hd := titleSearch_ne_nil hs
    have : b.length = b.data.length := rfl
    rw [this]
    cases hb : b.data with
    | nil => exact absurd hb hd
    | cons c cs => simp
  rw [if_pos hlen, hs]

theorem handleResponse_salvage_fail {status : Nat} {b : String}
    (h1 : 200 ≤ status) (h2 : status ≤ 299) (hp : parseJson b = none)
    (hs : titleSearch b.data = none) :
    handleResponse status b = .ok .null := by
  unfold handleResponse
  rw [if_pos (And.intro h1 h2), hp]
  by_cases hlen : b.length > 0
  · rw [if_pos hlen, hs]
  · rw [if_neg hlen]

/-! ## Witness fixtures: concrete descriptors and transports -/

def wD : Descriptor := { url := "https://example.org/data" }

def failAllT : Transport := ⟨fun _ _ => .fails 0 "TypeError"⟩

def okJsonT : Transport := ⟨fun _ _ => .completes 0 200 "\x7b\"a\":2\x7d"⟩

def failThenOkT : Transport :=
  ⟨fun i _ => if i = 0 then .fails 0 "TypeError" else .completes 0 200 "\x7b\"a\":2\x7d"⟩

def hangT : Transport := ⟨fun _ _ => .hangs⟩

/-! ## Claim theorems -/

/-- C1: for every request descriptor and every behavior of the underlying
transport, `makeApiRequest` never raises an error to its caller — the
outcome is always a returned value — and whenever the try body ends in an
exception (any failure mode), the returned value is null. -/
theorem C1_failures_collapse_to_null (d : Descriptor) (t : Transport) :
    (∃ v, apiResult d t = .returns v) ∧
    (∀ e l, tryBlock d t = (.error e, l) → apiResult d t = .returns .null) := by
  constructor
  · unfold apiResult makeApiRequest
    rcases htb : tryBlock d t with ⟨r, l⟩
    cases r
    · exact ⟨_, rfl⟩
    · exact ⟨_, rfl⟩
  · intro e l h
    unfold apiResult
    rw [makeApiRequest_of_err h]

/-- Witness for C1: a transport that rejects every attempt; the try body
throws and the call returns null. -/
theorem C1_witness : apiResult wD failAllT = .returns .null :=
  (C1_failures_collapse_to_null wD failAllT).2 "TypeError"
    ⟨List.replicate 3 (buildRequest wD), [1000, 2000]⟩ (by rfl)

/-- C3: against a transport whose every attempt fails at the network level,
the transport is invoked exactly 3 times and the result is null; and as
soon as any attempt yields an HTTP response the retry loop exits with it,
having made exactly that many attempts. -/
theorem C3_retry_exhaustion_and_stop :
    (∀ (d : Descriptor) (t : Transport),
      (∀ i, (effectiveOutcome d.timeout (t.behave i (buildRequest d))).isErr = true) →
      apiResult d t = .returns .null ∧ (apiRequests d t).length = 3) ∧
    (∀ (t : Transport) (req : Request) (timeout k s : Nat) (b : String),
      k < 3 →
      (∀ i, i < k → (effectiveOutcome timeout (t.behave i req)).isErr = true) →
      effectiveOutcome timeout (t.behave k req) = .ok s b →
      (retryLoop t req timeout).1 = .ok (s, b) ∧ (retryLoop t req timeout).2.2 = k + 1) := by
  constructor
  · intro d t h
    obtain ⟨n0, h0⟩ := isErr_iff.mp (h 0)
    obtain ⟨n1, h1⟩ := isErr_iff.mp (h 1)
    obtain ⟨n2, h2⟩ := isErr_iff.mp (h 2)
    have htb := tryBlock_of_loop_err (retryLoop_err_all h0 h1 h2)
    constructor
    · unfold apiResult
      rw [makeApiRequest_of_err htb]
    · unfold apiRequests
      rw [makeApiRequest_snd, htb]
      simp
  · intro t req timeout k s b hk hprev hok
    interval_cases k
    · rw [retryLoop_ok0 hok]
      exact ⟨rfl, rfl⟩
    · obtain ⟨n0, h0⟩ := isErr_iff.mp (hprev 0 (by norm_num))
      rw [retryLoop_err0_ok1 h0 hok]
      exact ⟨rfl, rfl⟩
    · obtain ⟨n0, h0⟩ := isErr_iff.mp (hprev 0 (by norm_num))
      obtain ⟨n1, h1⟩ := isErr_iff.mp (hprev 1 (by norm_num))
      rw [retryLoop_err01_ok2 h0 h1 hok]
      exact ⟨rfl, rfl⟩

/-- Witness for C3: all-failing transport gives null after exactly 3
attempts; a transport that fails once then responds stops after 2. -/
theorem C3_witness :
    (apiResult wD failAllT = .returns .null ∧ (apiRequests wD failAllT).length = 3) ∧
    ((retryLoop failThenOkT (buildRequest wD) 30000).1 = .ok (200, "\x7b\"a\":2\x7d") ∧
      (retryLoop failThenOkT (buildRequest wD) 30000).2.2 = 2) :=
  ⟨C3_retry_exhaustion_and_stop.1 wD failAllT (fun i => rfl),
   C3_retry_exhaustion_and_stop.2 failThenOkT (buildRequest wD) 30000 1 200 "\x7b\"a\":2\x7d"
     (by norm_num)
     (fun i hi => by
       have hi0 : i = 0 := by omega
       rw [hi0]
       rfl)
     rfl⟩

/-- C4: when the first k attempts (k < 3) fail at the network level and the
next one settles, the backoff sleeps performed are exactly
1000 * 2^(attempt-1) ms for attempt = 1..k; in particular a
fail-once-then-succeed transport yields the decoded JSON after exactly two
invocations with a single 1000 ms backoff. -/
theorem C4_backoff_delays :
    (∀ (t : Transport) (req : Request) (timeout k s : Nat) (b : String),
      k < 3 →
      (∀ i, i < k → (effectiveOutcome timeout (t.behave i req)).isErr = true) →
      effectiveOutcome timeout (t.behave k req) = .ok s b →
      (retryLoop t req timeout).2.1 = (List.range k).map (fun i => 1000 * 2 ^ i)) ∧
    (∀ (d : Descriptor) (t : Transport) (b : String) (v : Json) (nm : String),
      effectiveOutcome d.timeout (t.behave 0 (buildRequest d)) = .err nm →
      effectiveOutcome d.timeout (t.behave 1 (buildRequest d)) = .ok 200 b →
      parseJson b = some v →
      apiResult d t = .returns v ∧ (apiRequests d t).length = 2 ∧
        apiDelays d t = [1000]) := by
  constructor
  · intro t req timeout k s b hk hprev hok
    interval_cases k
    · rw [retryLoop_ok0 hok]
      simp
    · obtain ⟨n0, h0⟩ := isErr_iff.mp (hprev 0 (by norm_num))
      rw [retryLoop_err0_ok1 h0 hok]
      simp [List.range_succ]
    · obtain ⟨n0, h0⟩ := isErr_iff.mp (hprev 0 (by norm_num))
      obtain ⟨n1, h1⟩ := isErr_iff.mp (hprev 1 (by norm_num))
      rw [retryLoop_err01_ok2 h0 h1 hok]
      simp [List.range_succ]
  · intro d t b v nm h0 h1 hp
    have hloop := retryLoop_err0_ok1 h0 h1
    have hcond : ¬((200 : Nat) = 404 ∧ strIncludes d.url "/core/entry/" = true) := by
      intro hc
      exact absurd hc.1 (by norm_num)
    have htb := tryBlock_no_fallback hloop hcond
    rw [handleResponse_parse_ok (by norm_num) (by norm_num) hp] at htb
    refine ⟨?_, ?_, ?_⟩
    · unfold apiResult
      rw [makeApiRequest_of_ok htb]
    · unfold apiRequests
      rw [makeApiRequest_snd, htb]
      simp
    · unfold apiDelays
      rw [makeApiRequest_snd, htb]

/-- Witness for C4: fail once then succeed — decoded result, two calls, one
1000 ms backoff. -/
theorem C4_witness :
    (retryLoop failThenOkT (buildRequest wD) 30000).2.1 =
        (List.range 1).map (fun i => 1000 * 2 ^ i) ∧
    (apiResult wD failThenOkT = .returns (.obj [("a", .num 2)]) ∧
      (apiRequests wD failThenOkT).length = 2 ∧ apiDelays wD failThenOkT = [1000]) :=
  ⟨C4_backoff_delays.1 failThenOkT (buildRequest wD) 30000 1 200 "\x7b\"a\":2\x7d"
     (by norm_num)
     (fun i hi => by
       have hi0 : i = 0 := by omega
       rw [hi0]
       rfl)
     rfl,
   C4_backoff_delays.2 wD failThenOkT "\x7b\"a\":2\x7d" (.obj [("a", .num 2)]) "TypeError"
     rfl rfl rfl⟩

/-- Whether the raw fetch settles (resolves or rejects on its own) within
the timeout window. -/
def rawSettlesBy (timeout : Nat) : RawOutcome → Bool
  | .completes a _ _ => decide (a ≤ timeout)
  | .fails a _ => decide (a ≤ timeout)
  | .hangs => false

/-- C5: each attempt races the descriptor's timeout (default 30000 ms);
an attempt that has not settled within the timeout is aborted and the
abort is handled exactly like a transient network failure — counted
against the 3-attempt budget, retried with backoff while attempts remain,
and null after exhaustion. -/
theorem C5_per_attempt_timeout :
    (∀ u, ({ url := u } : Descriptor).timeout = 30000) ∧
    DEFAULT_API_TIMEOUT = 30000 ∧
    (∀ (timeout : Nat) (raw : RawOutcome), rawSettlesBy timeout raw = false →
      effectiveOutcome timeout raw = .err "AbortError") ∧
    (∀ (t : Transport) (req : Request) (timeout s : Nat) (b : String),
      effectiveOutcome timeout (t.behave 0 req) = .err "AbortError" →
      effectiveOutcome timeout (t.behave 1 req) = .ok s b →
      retryLoop t req timeout = (.ok (s, b), ([1000], 2))) ∧
    (∀ (t : Transport) (req : Request) (timeout : Nat),
      (∀ i, effectiveOutcome timeout (t.behave i req) = .err "AbortError") →
      retryLoop t req timeout = (.error "AbortError", ([1000, 2000], 3))) := by
  refine ⟨fun u => rfl, rfl, ?_, ?_, ?_⟩
  · intro timeout raw h
    cases raw with
    | completes a s b =>
      simp [rawSettlesBy] at h
      simp [effectiveOutcome]
      omega
    | fails a nm =>
      simp [rawSettlesBy] at h
      simp [effectiveOutcome]
      omega
    | hangs => rfl
  · intro t req timeout s b h0 h1
    exact retryLoop_err0_ok1 h0 h1
  · intro t req timeout h
    exact retryLoop_err_all (h 0) (h 1) (h 2)

/-- Witness for C5: the default timeout, an over-deadline response aborted,
and an always-hanging transport exhausting the budget. -/
theorem C5_witness :
    ({ url := "https://example.org/data" } : Descriptor).timeout = 30000 ∧
    effectiveOutcome 10 (.completes 50 200 "\x7b\x7d") = .err "AbortError" ∧
    retryLoop hangT (buildRequest wD) 30000 = (.error "AbortError", ([1000, 2000], 3)) :=
  ⟨C5_per_attempt_timeout.1 "https://example.org/data",
   C5_per_attempt_timeout.2.2.1 10 (.completes 50 200 "\x7b\x7d") rfl,
   C5_per_attempt_timeout.2.2.2.2 hangT (buildRequest wD) 30000 (fun _ => rfl)⟩

/-- C6: a first-attempt 2xx response with a valid-JSON body yields the
decoded value after exactly one transport invocation, with the specified
method, the fixed User-Agent and Accept headers, and a Content-Type header
exactly when a body is present. -/
theorem C6_first_attempt_success (d : Descriptor) (t : Transport) (s : Nat)
    (b : String) (v : Json)
    (h200 : 200 ≤ s) (h299 : s ≤ 299)
    (hok : effectiveOutcome d.timeout (t.behave 0 (buildRequest d)) = .ok s b)
    (hp : parseJson b = some v) :
    apiResult d t = .returns v ∧
    apiRequests d t = [buildRequest d] ∧
    (buildRequest d).method = d.method ∧
    ("User-Agent", USER_AGENT) ∈ (buildRequest d).headers ∧
    ("Accept", "application/json") ∈ (buildRequest d).headers ∧
    (("Content-Type", "application/json") ∈ (buildRequest d).headers ↔
      d.body.isSome = true) := by
  have hloop := retryLoop_ok0 hok
  have hcond : ¬(s = 404 ∧ strIncludes d.url "/core/entry/" = true) := by
    intro hc
    have := hc.1
    omega
  have htb := tryBlock_no_fallback hloop hcond
  rw [handleResponse_parse_ok h200 h299 hp] at htb
  refine ⟨?_, ?_, rfl, ?_, ?_, ?_⟩
  · unfold apiResult
    rw [makeApiRequest_of_ok htb]
  · unfold apiRequests
    rw [makeApiRequest_snd, htb]
    simp
  · cases hb : d.body <;> simp [buildRequest, requestHeaders, hb]
  · cases hb : d.body <;> simp [buildRequest, requestHeaders, hb]
  · cases hb : d.body <;> simp [buildRequest, requestHeaders, hb]

def wDBody : Descriptor :=
  { url := "https://example.org/data", method := "POST", body := some (.obj [("q", .str "x")]) }

/-- Witness for C6: a POST with a body, answered 200 with valid JSON on the
first attempt. -/
theorem C6_witness :
    apiResult wDBody okJsonT = .returns (.obj [("a", .num 2)]) ∧
    apiRequests wDBody okJsonT = [buildRequest wDBody] ∧
    (("Content-Type", "application/json") ∈ (buildRequest wDBody).headers ↔
      wDBody.body.isSome = true) := by
  have h := C6_first_attempt_success wDBody okJsonT 200 "\x7b\"a\":2\x7d"
    (.obj [("a", .num 2)]) (by norm_num) (by norm_num) rfl rfl
  exact ⟨h.1, h.2.1, h.2.2.2.2.2⟩

/-- C8: a 2xx response whose body fails JSON decoding is salvaged: if the
raw text matches the title pattern the call returns the minimal
struct-title object built from the first capture, otherwise it returns
null; the decode failure never escapes as an exception. -/
theorem C8_salvage_on_decode_failure (d : Descriptor) (t : Transport) (s : Nat) (b : String)
    (h200 : 200 ≤ s) (h299 : s ≤ 299)
    (hok : effectiveOutcome d.timeout (t.behave 0 (buildRequest d)) = .ok s b)
    (hp : parseJson b = none) :
    (∀ ttl, titleSearch b.data = some ttl →
      apiResult d t = .returns (.obj [("struct", .obj [("title", .str ttl)])])) ∧
    (titleSearch b.data = none → apiResult d t = .returns .null) := by
  have hloop := retryLoop_ok0 hok
  have hcond : ¬(s = 404 ∧ strIncludes d.url "/core/entry/" = true) := by
    intro hc
    have := hc.1
    omega
  have htb := tryBlock_no_fallback hloop hcond
  constructor
  · intro ttl hs
    have h2 := htb
    rw [handleResponse_salvage h200 h299 hp hs] at h2
    unfold apiResult
    rw [makeApiRequest_of_ok h2]
  · intro hs
    have h2 := htb
    rw [handleResponse_salvage_fail h200 h299 hp hs] at h2
    unfold apiResult
    rw [makeApiRequest_of_ok h2]

def salvageT : Transport := ⟨fun _ _ => .completes 0 200 "garbage \"title\": \"Foo\" tail"⟩

def emptyBodyT : Transport := ⟨fun _ _ => .completes 0 200 ""⟩

/-- Witness for C8: a 200 body that is not JSON but contains
`"title": "Foo"` salvages to the struct-title object; an empty non-JSON
body gives null. -/
theorem C8_witness :
    apiResult wD salvageT = .returns (.obj [("struct", .obj [("title", .str "Foo")])]) ∧
    apiResult wD emptyBodyT = .returns .null :=
  ⟨(C8_salvage_on_decode_failure wD salvageT 200 "garbage \"title\": \"Foo\" tail"
      (by norm_num) (by norm_num) rfl rfl).1 "Foo" rfl,
   (C8_salvage_on_decode_failure wD emptyBodyT 200 ""
      (by norm_num) (by norm_num) rfl rfl).2 rfl⟩

def lowIdD : Descriptor := { url := "https://data.rcsb.org/rest/v1/core/entry/6lu7" }

def upIdD : Descriptor := { url := "https://data.rcsb.org/rest/v1/core/entry/6LU7" }

def notFoundT : Transport :=
  ⟨fun i _ => if i = 0 then .completes 0 404 "nf"
    else .completes 0 200 "\x7b\"data\":null\x7d"⟩

/-- C2 counterexample: for the entry URL ending in the lowercase segment
`6lu7`, the one additional POST issued by the 404 fallback carries the
identifier uppercased to `6LU7` in its GraphQL body — not the last path
segment taken verbatim, as the claim states. -/
theorem C2_counterexample :
    (apiRequests lowIdD notFoundT).length = 2 ∧
    ((apiRequests lowIdD notFoundT).getLastD ⟨"", "", [], none⟩).body =
      some ("\x7b\"query\":\"\x7b entry(entry_id:\\\"6LU7\\\") \x7b rcsb_id struct \x7b title \x7d \x7d \x7d\"\x7d") ∧
    some ("\x7b\"query\":\"\x7b entry(entry_id:\\\"6LU7\\\") \x7b rcsb_id struct \x7b title \x7d \x7d \x7d\"\x7d") ≠
      some ("\x7b\"query\":\"\x7b entry(entry_id:\\\"6lu7\\\") \x7b rcsb_id struct \x7b title \x7d \x7d \x7d\"\x7d") :=
  ⟨rfl, rfl, by decide⟩

/-- C2 (amended): on a final 404 whose URL contains `/core/entry/` and
whose last path segment, once uppercased, is non-empty of length 4,
exactly one additional POST goes to the fixed GraphQL endpoint with the
query body built from the UPPERCASED last segment; otherwise no additional
request is issued. -/
theorem C2_fallback_request (d : Descriptor) (t : Transport) (b0 : String)
    (h404 : effectiveOutcome d.timeout (t.behave 0 (buildRequest d)) = .ok 404 b0) :
    (strIncludes d.url "/core/entry/" = true →
      lastPathSegmentUpper d.url ≠ "" →
      (lastPathSegmentUpper d.url).length = 4 →
      apiRequests d t =
        [buildRequest d, graphqlFallbackRequest (lastPathSegmentUpper d.url)] ∧
      (graphqlFallbackRequest (lastPathSegmentUpper d.url)).method = "POST" ∧
      (graphqlFallbackRequest (lastPathSegmentUpper d.url)).url = GRAPHQL_URL ∧
      (graphqlFallbackRequest (lastPathSegmentUpper d.url)).body =
        some (stringify (graphqlFallbackQuery (lastPathSegmentUpper d.url)))) ∧
    (¬(strIncludes d.url "/core/entry/" = true ∧ lastPathSegmentUpper d.url ≠ "" ∧
        (lastPathSegmentUpper d.url).length = 4) →
      apiRequests d t = [buildRequest d]) := by
  have hloop := retryLoop_ok0 h404
  constructor
  · intro hinc hne hlen
    have htb := tryBlock_fallback hloop hinc hne hlen
    refine ⟨?_, rfl, rfl, rfl⟩
    unfold apiRequests
    rw [makeApiRequest_snd, htb]
    simp
  · intro hno
    by_cases hinc : strIncludes d.url "/core/entry/" = true
    · have hshape : ¬(lastPathSegmentUpper d.url ≠ "" ∧
          (lastPathSegmentUpper d.url).length = 4) := by
        intro hsh
        exact hno ⟨hinc, hsh.1, hsh.2⟩
      have htb := tryBlock_shape_fail hloop hinc hshape
      unfold apiRequests
      rw [makeApiRequest_snd, htb]
      simp
    · have hcond : ¬((404 : Nat) = 404 ∧ strIncludes d.url "/core/entry/" = true) := by
        intro hc
        exact hinc hc.2
      have htb := tryBlock_no_fallback hloop hcond
      unfold apiRequests
      rw [makeApiRequest_snd, htb]
      simp

/-- Witness for C2 (amended): the uppercase entry URL triggers exactly one
extra GraphQL POST; a URL without the entry shape triggers none. -/
theorem C2_witness :
    apiRequests upIdD notFoundT =
      [buildRequest upIdD, graphqlFallbackRequest (lastPathSegmentUpper upIdD.url)] ∧
    apiRequests wD (⟨fun _ _ => .completes 0 404 "nf"⟩ : Transport) = [buildRequest wD] :=
  ⟨((C2_fallback_request upIdD notFoundT "nf" rfl).1 rfl (by decide) rfl).1,
   (C2_fallback_request wD ⟨fun _ _ => .completes 0 404 "nf"⟩ "nf" rfl).2
     (by
       intro hc
       exact absurd hc.1 (by decide))⟩

/-- Whether a given settled fallback fetch outcome rescues the 404: it must
be an OK status with a decodable body whose data.entry is truthy. -/
def fallbackRescues (fr : FetchResult) : Bool :=
  match fr with
  | .err _ => false
  | .ok gqlStatus gqlBody =>
    if 200 ≤ gqlStatus ∧ gqlStatus ≤ 299 then
      match parseJson gqlBody with
      | none => false
      | some gqlData =>
        match dataEntry gqlData with
        | some entry => jsTruthy entry
        | none => false
    else false

theorem fallbackResult_rescue {gs : Nat} {gb b0 : String} {gj e : Json}
    (h200 : 200 ≤ gs) (h299 : gs ≤ 299) (hpj : parseJson gb = some gj)
    (hde : dataEntry gj = some e) (htr : jsTruthy e = true) :
    fallbackResult (.ok gs gb) 404 b0 = .ok e := by
  simp only [fallbackResult]
  rw [if_pos (And.intro h200 h299)]
  simp only [hpj, hde]
  rw [if_pos htr]

theorem fallbackResult_no_rescue {fr : FetchResult} {b0 : String}
    (h : fallbackRescues fr = false) :
    ∃ msg, fallbackResult fr 404 b0 = .error msg := by
  cases fr with
  | err nm => exact ⟨nm, rfl⟩
  | ok gs gb =>
    simp only [fallbackRescues] at h
    simp only [fallbackResult]
    by_cases hok : 200 ≤ gs ∧ gs ≤ 299
    · rw [if_pos hok] at h ⊢
      cases hpj : parseJson gb with
      | none =>
        simp only [hpj]
        exact ⟨_, rfl⟩
      | some gj =>
        simp only [hpj] at h ⊢
        cases hde : dataEntry gj with
        | none =>
          simp only [hde]
          exact ⟨_, handleResponse_http_err (by omega)⟩
        | some e =>
          simp only [hde] at h ⊢
          rw [if_neg (by simp [h])]
          exact ⟨_, handleResponse_http_err (by omega)⟩
    · rw [if_neg hok]
      exact ⟨_, handleResponse_http_err (by omega)⟩

/-- C7: when the 404 fallback fires, an OK GraphQL response whose decoded
body carries a truthy data.entry is returned in place of the 404; any
other fallback outcome (non-OK status, undecodable body, absent or falsy
entry, or a failed rescue fetch) ends with the original 404 handling: the
call returns null and nothing is raised. -/
theorem C7_fallback_rescue (d : Descriptor) (t : Transport) (b0 : String)
    (h404 : effectiveOutcome d.timeout (t.behave 0 (buildRequest d)) = .ok 404 b0)
    (hinc : strIncludes d.url "/core/entry/" = true)
    (hne : lastPathSegmentUpper d.url ≠ "")
    (hlen : (lastPathSegmentUpper d.url).length = 4) :
    (∀ gs gb gj e,
      effectiveOutcome d.timeout
          (t.behave 1 (graphqlFallbackRequest (lastPathSegmentUpper d.url))) = .ok gs gb →
      200 ≤ gs → gs ≤ 299 → parseJson gb = some gj → dataEntry gj = some e →
      jsTruthy e = true → apiResult d t = .returns e) ∧
    (fallbackRescues
        (effectiveOutcome d.timeout
          (t.behave 1 (graphqlFallbackRequest (lastPathSegmentUpper d.url)))) = false →
      apiResult d t = .returns .null) := by
  have hloop := retryLoop_ok0 h404
  have htb := tryBlock_fallback hloop hinc hne hlen
  constructor
  · intro gs gb gj e hg h200 h299 hpj hde htr
    rw [hg, fallbackResult_rescue h200 h299 hpj hde htr] at htb
    unfold apiResult
    rw [makeApiRequest_of_ok htb]
  · intro hno
    obtain ⟨msg, hmsg⟩ := @fallbackResult_no_rescue _ b0 hno
    rw [hmsg] at htb
    unfold apiResult
    rw [makeApiRequest_of_err htb]

def gqlHitT : Transport :=
  ⟨fun i _ => if i = 0 then .completes 0 404 "nf"
    else .completes 0 200
      "\x7b\"data\":\x7b\"entry\":\x7b\"rcsb_id\":\"6LU7\",\"struct\":\x7b\"title\":\"X\"\x7d\x7d\x7d\x7d"⟩

/-- Witness for C7: a 404 on `.../entry/6LU7` rescued by a GraphQL entry is
returned in its place; a 404 whose GraphQL rescue yields a null entry gives
null. -/
theorem C7_witness :
    apiResult upIdD gqlHitT =
      .returns (.obj [("rcsb_id", .str "6LU7"), ("struct", .obj [("title", .str "X")])]) ∧
    apiResult upIdD notFoundT = .returns .null :=
  ⟨(C7_fallback_rescue upIdD gqlHitT "nf" rfl rfl (by decide) rfl).1 200
      "\x7b\"data\":\x7b\"entry\":\x7b\"rcsb_id\":\"6LU7\",\"struct\":\x7b\"title\":\"X\"\x7d\x7d\x7d\x7d"
      (.obj [("data", .obj [("entry",
        .obj [("rcsb_id", .str "6LU7"), ("struct", .obj [("title", .str "X")])])])])
      (.obj [("rcsb_id", .str "6LU7"), ("struct", .obj [("title", .str "X")])])
      rfl (by norm_num) (by norm_num) rfl rfl rfl,
   (C7_fallback_rescue upIdD notFoundT "nf" rfl rfl (by decide) rfl).2 rfl⟩

/-- C9: the outcome of a call is a deterministic function of the
descriptor and of the transport's responses — two transports answering
identically give identical results, call logs included; no hidden state
influences the result. -/
theorem C9_deterministic (d : Descriptor) (t1 t2 : Transport)
    (h : ∀ i r, t1.behave i r = t2.behave i r) :
    makeApiRequest d t1 = makeApiRequest d t2 := by
  have ht : t1 = t2 := by
    cases t1 with
    | mk b1 =>
      cases t2 with
      | mk b2 =>
        have hb : b1 = b2 := by
          funext i r
          exact h i r
        rw [hb]
  rw [ht]

def okJsonT2 : Transport := ⟨fun _ _ => .completes 0 200 "\x7b\"a\":2\x7d"⟩

/-- Witness for C9: two identically-behaving transports produce equal
results. -/
theorem C9_witness : makeApiRequest wD okJsonT = makeApiRequest wD okJsonT2 :=
  C9_deterministic wD okJsonT okJsonT2 (fun _ _ => rfl)

theorem retryGo_calls_pos (t : Transport) (req : Request) (timeout : Nat)
    (fuel retries callIdx : Nat) :
    0 < (retryGo t req timeout (fuel + 1) retries callIdx).2.2 := by
  cases hf : effectiveOutcome timeout (t.behave callIdx req) with
  | ok s b => simp [retryGo, hf]
  | err nm =>
    cases fuel with
    | zero => simp [retryGo, hf]
    | succ m => simp [retryGo, hf]

theorem tryBlock_requests_head (d : Descriptor) (t : Transport) :
    ((tryBlock d t).2.requests).head? = some (buildRequest d) := by
  have hpos : 0 < (retryLoop t (buildRequest d) d.timeout).2.2 :=
    retryGo_calls_pos t (buildRequest d) d.timeout 2 0 0
  rcases hloop : retryLoop t (buildRequest d) d.timeout with ⟨r, delays, n⟩
  rw [hloop] at hpos
  simp at hpos
  obtain ⟨m, rfl⟩ : ∃ m, n = m + 1 := ⟨n - 1, by omega⟩
  cases r with
  | error e =>
    rw [tryBlock_of_loop_err hloop]
    simp [List.replicate_succ]
  | ok p =>
    rcases p with ⟨status, bodyText⟩
    by_cases hcond : status = 404 ∧ strIncludes d.url "/core/entry/" = true
    · obtain ⟨h404, hinc⟩ := hcond
      subst h404
      by_cases hshape : lastPathSegmentUpper d.url ≠ "" ∧
          (lastPathSegmentUpper d.url).length = 4
      · rw [tryBlock_fallback hloop hinc hshape.1 hshape.2]
        simp [List.replicate_succ]
      · rw [tryBlock_shape_fail hloop hinc hshape]
        simp [List.replicate_succ]
    · rw [tryBlock_no_fallback hloop hcond]
      simp [List.replicate_succ]

/-- C10: whenever a body value is provided, the request entity handed to
the transport is JSON.stringify(body) together with a
Content-Type: application/json header, independently of the method —
including GET; and the first request issued is exactly that built
request. -/
theorem C10_body_regardless_of_method (u m : String) (bj : Json) (tmo : Nat) :
    (buildRequest { url := u, method := m, body := some bj, timeout := tmo }).body =
      some (stringify bj) ∧
    ("Content-Type", "application/json") ∈
      (buildRequest { url := u, method := m, body := some bj, timeout := tmo }).headers ∧
    (buildRequest { url := u, method := m, body := some bj, timeout := tmo }).body =
      (buildRequest { url := u, method := "GET", body := some bj, timeout := tmo }).body ∧
    (buildRequest { url := u, method := m, body := some bj, timeout := tmo }).headers =
      (buildRequest { url := u, method := "GET", body := some bj, timeout := tmo }).headers ∧
    ∀ t : Transport,
      (apiRequests { url := u, method := m, body := some bj, timeout := tmo } t).head? =
        some (buildRequest { url := u, method := m, body := some bj, timeout := tmo }) := by
  refine ⟨rfl, by simp [buildRequest, requestHeaders], rfl, rfl, ?_⟩
  intro t
  unfold apiRequests
  rw [makeApiRequest_snd]
  exact tryBlock_requests_head _ t
